import Mathlib

/-!
Shallow embedding of the chocolate quality-control system (src/TB1.py).

The Python program defines:
* `TipoDefecto`, `EstadoCalidad` — enumerations;
* `Chocolate` (base), `ChocolateMoldeado`, `ChocolateEmpaque` — an item with a
  batch id, production timestamp, accumulated defect list and a quality status,
  with a polymorphic `evaluar_calidad`;
* `SistemaControlCalidad` — an orchestrator holding a process-name→sensor map
  and an append-only list of inspection records, with operations
  `registrar_sensor`, `inspeccionar_chocolate`, `generar_reporte`,
  `mostrar_inspecciones`.

Modelling choices:
* The subclass hierarchy is a `tipo : TipoChocolate` tag on one structure;
  `evaluar_calidad` dispatches on the tag exactly as Python's virtual dispatch
  selects the override.  The write-only fields `tipo_molde` / `tipo_empaque`
  (stored by the constructors but never read) are omitted.
* A sensor is its detection function `Chocolate → List TipoDefecto`; the random
  `SensorVisual` is an external collaborator and is not reproduced.
* Methods that mutate or return `self`'s state are state-passing functions;
  `inspeccionar_chocolate` returns `(Except String EstadoCalidad) × Chocolate ×
  Sistema`, the error case returning the chocolate and the system exactly as
  received (the Python `raise` happens before any mutation).
* `datetime` values are a six-field record; `strftime('%Y-%m-%d %H:%M:%S')` is
  zero-padded decimal rendering.  Python's float `{x:.2f}` formatting is
  modelled on exact rationals with round-half-to-even to two decimals.
-/

namespace ControlCalidad

/-- `class TipoDefecto(Enum)` of src/TB1.py. -/
inductive TipoDefecto where
  | BURBUJAS
  | ROTURA
  | FORMA_INCORRECTA
  | MANCHAS
  | FALTANTE
  | EMPAQUE_DANADO
deriving DecidableEq, Repr

/-- The `.value` strings of `TipoDefecto`. -/
def TipoDefecto.value : TipoDefecto → String
  | .BURBUJAS => "burbujas_aire"
  | .ROTURA => "rotura"
  | .FORMA_INCORRECTA => "forma_incorrecta"
  | .MANCHAS => "manchas"
  | .FALTANTE => "pieza_faltante"
  | .EMPAQUE_DANADO => "empaque_danado"

/-- `class EstadoCalidad(Enum)` of src/TB1.py. -/
inductive EstadoCalidad where
  | APROBADO
  | RECHAZADO
  | PENDIENTE
deriving DecidableEq, Repr

/-- The `.value` strings of `EstadoCalidad`. -/
def EstadoCalidad.value : EstadoCalidad → String
  | .APROBADO => "aprobado"
  | .RECHAZADO => "rechazado"
  | .PENDIENTE => "pendiente"

/-- A `datetime` value, reduced to the six fields that
`strftime('%Y-%m-%d %H:%M:%S')` renders. -/
structure Datetime where
  year : Nat
  month : Nat
  day : Nat
  hour : Nat
  minute : Nat
  second : Nat
deriving DecidableEq, Repr

/-- Zero-pad a natural number to two decimal digits. -/
def pad2 (n : Nat) : String :=
  if n < 10 then "0" ++ toString n else toString n

/-- Zero-pad a natural number to four decimal digits (the `%Y` field). -/
def pad4 (n : Nat) : String :=
  if n < 10 then "000" ++ toString n
  else if n < 100 then "00" ++ toString n
  else if n < 1000 then "0" ++ toString n
  else toString n

/-- `fecha.strftime('%Y-%m-%d %H:%M:%S')` as used in `mostrar_inspecciones`. -/
def Datetime.strftime_fmt (d : Datetime) : String :=
  pad4 d.year ++ "-" ++ pad2 d.month ++ "-" ++ pad2 d.day ++ " " ++
    pad2 d.hour ++ ":" ++ pad2 d.minute ++ ":" ++ pad2 d.second

/-- Which Python class the item was constructed as: the base `Chocolate`, or a
`ChocolateMoldeado` / `ChocolateEmpaque` subclass instance. -/
inductive TipoChocolate where
  | base
  | moldeado
  | empaque
deriving DecidableEq, Repr

/-- `chocolate.__class__.__name__`, recorded in each inspection record. -/
def TipoChocolate.className : TipoChocolate → String
  | .base => "Chocolate"
  | .moldeado => "ChocolateMoldeado"
  | .empaque => "ChocolateEmpaque"

/-- The `Chocolate` object state: `_lote_id`, `_fecha_produccion`, `_defectos`
and `_estado_calidad`, plus the class tag replacing Python's dynamic type.
Fresh items are built with `[]` defects and `PENDIENTE` status, as in
`Chocolate.__init__`. -/
structure Chocolate where
  lote_id : String
  fecha_produccion : Datetime
  tipo : TipoChocolate
  defectos : List TipoDefecto
  estado_calidad : EstadoCalidad
deriving DecidableEq, Repr

/-- The three constructors (`Chocolate`, `ChocolateMoldeado`,
`ChocolateEmpaque`) all initialise defects to `[]` and status to `PENDIENTE`. -/
def mkChocolate (lote_id : String) (fecha : Datetime) (tipo : TipoChocolate) :
    Chocolate :=
  { lote_id := lote_id, fecha_produccion := fecha, tipo := tipo,
    defectos := [], estado_calidad := .PENDIENTE }

/-- `Chocolate.agregar_defecto`: append the defect unless already present. -/
def agregar_defecto (c : Chocolate) (defecto : TipoDefecto) : Chocolate :=
  if defecto ∈ c.defectos then c
  else { c with defectos := c.defectos ++ [defecto] }

/-- `evaluar_calidad`, with Python's virtual dispatch made explicit on the
class tag: the base rule (approved iff no defects), the `ChocolateMoldeado`
override (rejected iff bubbles, breakage or wrong shape present) and the
`ChocolateEmpaque` override (rejected iff breakage, damaged packaging or a
missing piece present).  Returns the computed status together with the updated
object, since the method stores the result in `_estado_calidad`. -/
def evaluar_calidad (c : Chocolate) : EstadoCalidad × Chocolate :=
  let nuevo : EstadoCalidad :=
    match c.tipo with
    | .base => if c.defectos = [] then .APROBADO else .RECHAZADO
    | .moldeado =>
        if TipoDefecto.BURBUJAS ∈ c.defectos ∨ TipoDefecto.ROTURA ∈ c.defectos ∨
            TipoDefecto.FORMA_INCORRECTA ∈ c.defectos
        then .RECHAZADO else .APROBADO
    | .empaque =>
        if TipoDefecto.ROTURA ∈ c.defectos ∨ TipoDefecto.EMPAQUE_DANADO ∈ c.defectos ∨
            TipoDefecto.FALTANTE ∈ c.defectos
        then .RECHAZADO else .APROBADO
  (nuevo, { c with estado_calidad := nuevo })

/-- A quality sensor, identified with its `detectar_defectos` method.  The
random `SensorVisual` is one inhabitant; the claims quantify over all. -/
def Sensor := Chocolate → List TipoDefecto

/-- One entry of `self._resultados`: the dictionary built by
`_registrar_resultado` (batch id, now-timestamp, process name, the `.value`
strings of the defects found in that call, the `.value` of the resulting
status, and the class name of the item). -/
structure Registro where
  lote_id : String
  fecha : Datetime
  proceso : String
  defectos : List String
  resultado : String
  tipo_chocolate : String
deriving DecidableEq, Repr

/-- `SistemaControlCalidad` state: the process-name→sensor map `_sensores`
(a Python dict, modelled by its lookup function) and the append-only record
list `_resultados`. -/
structure Sistema where
  sensores : String → Option Sensor
  resultados : List Registro

/-- A fresh `SistemaControlCalidad()`. -/
def mkSistema : Sistema :=
  { sensores := fun _ => none, resultados := [] }

/-- `registrar_sensor`: bind the process name, overwriting any existing
binding. -/
def registrar_sensor (s : Sistema) (proceso : String) (sensor : Sensor) :
    Sistema :=
  { s with sensores := fun p => if p = proceso then some sensor else s.sensores p }

/-- `_registrar_resultado`: append one record to `_resultados`.  `ahora`
stands for `datetime.now()`. -/
def registrar_resultado (s : Sistema) (c : Chocolate)
    (defectos : List TipoDefecto) (resultado : EstadoCalidad) (proceso : String)
    (ahora : Datetime) : Sistema :=
  { s with resultados := s.resultados ++
      [{ lote_id := c.lote_id, fecha := ahora, proceso := proceso,
         defectos := defectos.map TipoDefecto.value,
         resultado := resultado.value,
         tipo_chocolate := c.tipo.className }] }

/-- `inspeccionar_chocolate`: look the sensor up (raising `ValueError` with the
source's message if absent — the error branch returns the chocolate and the
system untouched, as the Python `raise` occurs before any mutation), add each
detected defect to the item, evaluate its quality, record the result, and
return the status along with the updated item and system states. -/
def inspeccionar_chocolate (s : Sistema) (c : Chocolate) (proceso : String)
    (ahora : Datetime) : Except String EstadoCalidad × Chocolate × Sistema :=
  match s.sensores proceso with
  | none =>
      (Except.error ("No hay sensor registrado para el proceso: " ++ proceso),
        c, s)
  | some sensor =>
      let defectos := sensor c
      let c1 := defectos.foldl agregar_defecto c
      let res := evaluar_calidad c1
      (Except.ok res.1, res.2,
        registrar_resultado s res.2 defectos res.1 proceso ahora)

/-- Round a nonnegative rational to an integer number of hundredths,
half-to-even — the rounding Python's `format(x, '.2f')` applies.  Computed on
the numerator and denominator with integer arithmetic: `n` is `⌊q * 100⌋` and
`r / den` the remaining fraction, rounded up iff it exceeds one half or equals
one half with `n` odd. -/
def round2 (q : Rat) : Nat :=
  let num : Int := q.num * 100
  let den : Int := (q.den : Int)
  let n : Int := num.fdiv den
  let r : Int := num - n * den
  if den < 2 * r then (n + 1).toNat
  else if 2 * r < den then n.toNat
  else if n % 2 = 0 then n.toNat else (n + 1).toNat

/-- `f"{q:.2f}"` for a nonnegative rational. -/
def fmtF2 (q : Rat) : String :=
  let c := round2 q
  toString (c / 100) ++ "." ++ pad2 (c % 100)

/-- `contador_defectos[defecto] = contador_defectos.get(defecto, 0) + 1` on an
insertion-ordered association list (a Python dict). -/
def incKey : List (String × Nat) → String → List (String × Nat)
  | [], d => [(d, 1)]
  | (k, v) :: rest, d =>
      if k = d then (k, v + 1) :: rest else (k, v) :: incKey rest d

/-- `contador_defectos.get(v, 0)`: look a key up, defaulting to `0`. -/
def buscarContador : List (String × Nat) → String → Nat
  | [], _ => 0
  | (k, n) :: rest, v => if k = v then n else buscarContador rest v

/-- The defect tally of `generar_reporte`: the nested
`for resultado in self._resultados: for defecto in resultado['defectos']`
loops building `contador_defectos`. -/
def contadorDefectos (rs : List Registro) : List (String × Nat) :=
  rs.foldl (fun acc r => r.defectos.foldl incKey acc) []

/-- `generar_reporte`, returning the report together with the (unchanged)
system state `self`.  The string literals reproduce the triple-quoted
f-string of the source byte for byte, including its 8-space indentation. -/
def generar_reporte (s : Sistema) : String × Sistema :=
  if s.resultados = [] then
    ("No hay datos de inspección para generar reporte.", s)
  else
    let total_inspecciones := s.resultados.length
    let aprobados : Nat := s.resultados.foldl
      (fun acc r => if r.resultado = EstadoCalidad.APROBADO.value then acc + 1
                    else acc) 0
    let tasa_aprobacion : Rat :=
      if total_inspecciones > 0 then
        (aprobados : Rat) / (total_inspecciones : Rat) * 100
      else 0
    let reporte :=
      "\n        REPORTE DE CONTROL DE CALIDAD" ++
      "\n        =============================" ++
      "\n        Total de inspecciones: " ++ toString total_inspecciones ++
      "\n        Productos aprobados: " ++ toString aprobados ++
      "\n        Productos rechazados: " ++ toString (total_inspecciones - aprobados) ++
      "\n        Tasa de aprobación: " ++ fmtF2 tasa_aprobacion ++ "%" ++
      "\n        " ++
      "\n        Detalle por defectos:" ++
      "\n        "
    let contador := contadorDefectos s.resultados
    if contador = [] then (reporte ++ "  No se detectaron defectos\n", s)
    else
      (contador.foldl
        (fun rep p =>
          rep ++ ("  - " ++ p.1 ++ ": " ++ toString p.2 ++ " ocurrencias\n"))
        reporte, s)

/-- The text one iteration of the `mostrar_inspecciones` loop appends for the
record numbered `k` (1-based): the numbered header line, the defects line only
when the record's defect list is nonempty, the formatted timestamp line, and a
50-dash separator. -/
def entradaHistorial (k : Nat) (r : Registro) : String :=
  toString k ++ ". Lote: " ++ r.lote_id ++ " | " ++
    "Proceso: " ++ r.proceso ++ " | " ++
    "Resultado: " ++ r.resultado ++ "\n" ++
    (if r.defectos = [] then ""
     else "   Defectos: " ++ String.intercalate ", " r.defectos ++ "\n") ++
    "   Fecha: " ++ r.fecha.strftime_fmt ++ "\n" ++
    String.mk (List.replicate 50 '-') ++ "\n"

/-- `mostrar_inspecciones`, returning the rendered history together with the
(unchanged) system state: `for i, resultado in enumerate(self._resultados, 1)`
appending `entradaHistorial` per record. -/
def mostrar_inspecciones (s : Sistema) : String × Sistema :=
  if s.resultados = [] then ("No hay inspecciones registradas.", s)
  else
    (s.resultados.enum.foldl
      (fun rep p => rep ++ entradaHistorial (p.1 + 1) p.2)
      ("HISTORIAL DE INSPECCIONES\n" ++ String.mk (List.replicate 50 '=') ++ "\n"),
      s)

/-- The numbered entries `entradaHistorial k r₁, entradaHistorial (k+1) r₂, …`
for a record list, as a list of strings (used to state what the
`mostrar_inspecciones` loop produces). -/
def entradasHistorial (k : Nat) : List Registro → List String
  | [] => []
  | r :: rs => entradaHistorial k r :: entradasHistorial (k + 1) rs

/-- Concatenation of a list of strings. -/
def concatStr : List String → String
  | [] => ""
  | x :: xs => x ++ concatStr xs

/-- The public operations a driver can apply to one item and the system:
`agregar_defecto`, `evaluar_calidad`, and `inspeccionar_chocolate` (the last
with the wall-clock time it would observe). -/
inductive Op where
  | agregar (d : TipoDefecto)
  | evaluar
  | inspeccionar (proceso : String) (ahora : Datetime)

/-- One driver step on the joint item/system state.  A failed inspection
leaves the state exactly as the error branch of `inspeccionar_chocolate`
returns it. -/
def step (st : Chocolate × Sistema) : Op → Chocolate × Sistema
  | .agregar d => (agregar_defecto st.1 d, st.2)
  | .evaluar => ((evaluar_calidad st.1).2, st.2)
  | .inspeccionar p t =>
      let r := inspeccionar_chocolate st.2 st.1 p t
      (r.2.1, r.2.2)

/-- A driver session: a sequence of operations applied in order. -/
def run (st : Chocolate × Sistema) (ops : List Op) : Chocolate × Sistema :=
  ops.foldl step st

/-! Concrete fixtures used by witnesses. -/

/-- A fixed production timestamp for witness states. -/
def fecha0 : Datetime := ⟨2024, 3, 5, 10, 2, 9⟩

/-- A fresh molded chocolate. -/
def cMolVacio : Chocolate := mkChocolate "L1" fecha0 .moldeado

/-- A molded chocolate whose only defect is stains. -/
def cMolManchas : Chocolate :=
  { cMolVacio with defectos := [TipoDefecto.MANCHAS] }

/-- A fresh packaged chocolate. -/
def cEmpVacio : Chocolate := mkChocolate "L2" fecha0 .empaque

/-- A system whose `"moldeado"` process has a sensor that always reports a
breakage. -/
def sMolSensor : Sistema :=
  registrar_sensor mkSistema "moldeado" (fun _ => [TipoDefecto.ROTURA])

/-- `cMolVacio` after one inspection by that sensor: one breakage, rejected. -/
def cMolRoto : Chocolate :=
  { cMolVacio with defectos := [TipoDefecto.ROTURA], estado_calidad := .RECHAZADO }

/-- The record that inspection appends. -/
def regRoto : Registro :=
  { lote_id := "L1", fecha := fecha0, proceso := "moldeado",
    defectos := ["rotura"], resultado := "rechazado",
    tipo_chocolate := "ChocolateMoldeado" }

/-- `sMolSensor` after that inspection. -/
def sMolDespues : Sistema := { sMolSensor with resultados := [regRoto] }

/-- A record with the given verdict string and defect strings. -/
def regCon (lote : String) (resultado : String) (defectos : List String) :
    Registro :=
  { lote_id := lote, fecha := fecha0, proceso := "moldeado",
    defectos := defectos, resultado := resultado,
    tipo_chocolate := "ChocolateMoldeado" }

/-- A log of four inspections, three of them approved. -/
def sCuatro : Sistema :=
  { sensores := fun _ => none,
    resultados :=
      [regCon "A1" "aprobado" [], regCon "A2" "aprobado" ["manchas"],
       regCon "R1" "rechazado" ["rotura", "manchas"],
       regCon "A3" "aprobado" []] }

/-! Spec-side renderings, written from the spec's words, to be compared with
what `generar_reporte` produces. -/

/-- The header block of the report as the spec describes it: total `n`,
approved `a`, rejected `n - a`, and the approval rate `a / n * 100` rendered
to two decimals. -/
def reporteEncabezadoSpec (total aprobados : Nat) : String :=
  "\n        REPORTE DE CONTROL DE CALIDAD" ++
  "\n        =============================" ++
  "\n        Total de inspecciones: " ++ toString total ++
  "\n        Productos aprobados: " ++ toString aprobados ++
  "\n        Productos rechazados: " ++ toString (total - aprobados) ++
  "\n        Tasa de aprobación: " ++
    fmtF2 ((aprobados : Rat) / (total : Rat) * 100) ++ "%" ++
  "\n        " ++
  "\n        Detalle por defectos:" ++
  "\n        "

/-- The defect table of the report as the spec describes it: one
`kind: count` line per tallied kind in first-seen order, or the fixed
no-defects line when the tally is empty. -/
def reporteDetalleSpec (contador : List (String × Nat)) : String :=
  if contador = [] then "  No se detectaron defectos\n"
  else
    concatStr (contador.map
      (fun p => "  - " ++ p.1 ++ ": " ++ toString p.2 ++ " ocurrencias\n"))

/-- Claim C1: for every defect set of a `ChocolateMoldeado`,
`evaluar_calidad` returns `RECHAZADO` iff the set meets
{`BURBUJAS`, `ROTURA`, `FORMA_INCORRECTA`}, and `APROBADO` otherwise. -/
theorem evaluar_moldeado_iff (c : Chocolate) (h : c.tipo = .moldeado) :
    ((evaluar_calidad c).1 = .RECHAZADO ↔
      (TipoDefecto.BURBUJAS ∈ c.defectos ∨ TipoDefecto.ROTURA ∈ c.defectos ∨
        TipoDefecto.FORMA_INCORRECTA ∈ c.defectos))
  ∧ ((evaluar_calidad c).1 = .APROBADO ↔
      ¬(TipoDefecto.BURBUJAS ∈ c.defectos ∨ TipoDefecto.ROTURA ∈ c.defectos ∨
        TipoDefecto.FORMA_INCORRECTA ∈ c.defectos)) := by
  have h1 : (evaluar_calidad c).1 =
      if TipoDefecto.BURBUJAS ∈ c.defectos ∨ TipoDefecto.ROTURA ∈ c.defectos ∨
          TipoDefecto.FORMA_INCORRECTA ∈ c.defectos
      then .RECHAZADO else .APROBADO := by
    unfold evaluar_calidad
    rw [h]
  rw [h1]
  by_cases hp : TipoDefecto.BURBUJAS ∈ c.defectos ∨ TipoDefecto.ROTURA ∈ c.defectos ∨
      TipoDefecto.FORMA_INCORRECTA ∈ c.defectos <;>
    simp [hp]

/-- Claim C1 witness: a molded chocolate whose only defect is stains is
approved. -/
theorem evaluar_moldeado_iff_witness :
    (evaluar_calidad cMolManchas).1 = .APROBADO :=
  (evaluar_moldeado_iff cMolManchas rfl).2.mpr (by decide)

/-- Claim C2: for every defect set of a `ChocolateEmpaque`,
`evaluar_calidad` returns `RECHAZADO` iff the set meets
{`ROTURA`, `EMPAQUE_DANADO`, `FALTANTE`}, and `APROBADO` otherwise. -/
theorem evaluar_empaque_iff (c : Chocolate) (h : c.tipo = .empaque) :
    ((evaluar_calidad c).1 = .RECHAZADO ↔
      (TipoDefecto.ROTURA ∈ c.defectos ∨ TipoDefecto.EMPAQUE_DANADO ∈ c.defectos ∨
        TipoDefecto.FALTANTE ∈ c.defectos))
  ∧ ((evaluar_calidad c).1 = .APROBADO ↔
      ¬(TipoDefecto.ROTURA ∈ c.defectos ∨ TipoDefecto.EMPAQUE_DANADO ∈ c.defectos ∨
        TipoDefecto.FALTANTE ∈ c.defectos)) := by
  have h1 : (evaluar_calidad c).1 =
      if TipoDefecto.ROTURA ∈ c.defectos ∨ TipoDefecto.EMPAQUE_DANADO ∈ c.defectos ∨
          TipoDefecto.FALTANTE ∈ c.defectos
      then .RECHAZADO else .APROBADO := by
    unfold evaluar_calidad
    rw [h]
  rw [h1]
  by_cases hp : TipoDefecto.ROTURA ∈ c.defectos ∨ TipoDefecto.EMPAQUE_DANADO ∈ c.defectos ∨
      TipoDefecto.FALTANTE ∈ c.defectos <;>
    simp [hp]

/-- Claim C2 witness: a packaged chocolate with an empty defect set is
approved. -/
theorem evaluar_empaque_iff_witness :
    (evaluar_calidad cEmpVacio).1 = .APROBADO :=
  (evaluar_empaque_iff cEmpVacio rfl).2.mpr (by decide)

/-- Claim C4: `agregar_defecto` is idempotent — adding a kind already present
is a no-op, adding twice equals adding once, and (from any duplicate-free
state, as every reachable state is) the result holds the kind exactly once
and stays duplicate-free. -/
theorem agregar_defecto_idem (c : Chocolate) (d : TipoDefecto) :
    (d ∈ c.defectos → agregar_defecto c d = c)
  ∧ agregar_defecto (agregar_defecto c d) d = agregar_defecto c d
  ∧ (c.defectos.Nodup →
      (agregar_defecto c d).defectos.count d = 1 ∧
        (agregar_defecto c d).defectos.Nodup) := by
  refine ⟨fun hm => by simp [agregar_defecto, hm], ?_, fun hnd => ?_⟩
  · by_cases hm : d ∈ c.defectos
    · simp [agregar_defecto, hm]
    · have h1 : agregar_defecto c d = { c with defectos := c.defectos ++ [d] } := by
        simp [agregar_defecto, hm]
      have hd : d ∈ ({ c with defectos := c.defectos ++ [d] } : Chocolate).defectos := by
        simp
      rw [h1]
      simp [agregar_defecto, hd]
  · by_cases hm : d ∈ c.defectos
    · have h1 : agregar_defecto c d = c := by simp [agregar_defecto, hm]
      rw [h1]
      exact ⟨List.count_eq_one_of_mem hnd hm, hnd⟩
    · have h1 : (agregar_defecto c d).defectos = c.defectos ++ [d] := by
        simp [agregar_defecto, hm]
      rw [h1]
      constructor
      · rw [List.count_append]
        simp [List.count_eq_zero_of_not_mem hm]
      · rw [List.nodup_append]
        refine ⟨hnd, by simp, by simpa using hm⟩

/-- Claim C4 witness: on concrete items, re-adding a present defect is a
no-op, double insertion equals single insertion, and the count is one. -/
theorem agregar_defecto_idem_witness :
    agregar_defecto cMolManchas .MANCHAS = cMolManchas
  ∧ agregar_defecto (agregar_defecto cMolVacio .ROTURA) .ROTURA =
      agregar_defecto cMolVacio .ROTURA
  ∧ (agregar_defecto cMolVacio .ROTURA).defectos.count .ROTURA = 1 :=
  ⟨(agregar_defecto_idem cMolManchas .MANCHAS).1 (by decide),
   (agregar_defecto_idem cMolVacio .ROTURA).2.1,
   ((agregar_defecto_idem cMolVacio .ROTURA).2.2 (by decide)).1⟩

/-- Claim C3: inspecting with a process name absent from the sensor map fails
with the `ValueError` message and returns the chocolate and the system exactly
as they were — no record is appended, no sensor binding changes, and the
item's defects and status are untouched. -/
theorem inspeccionar_proceso_desconocido (s : Sistema) (c : Chocolate)
    (proceso : String) (t : Datetime) (h : s.sensores proceso = none) :
    inspeccionar_chocolate s c proceso t =
      (Except.error ("No hay sensor registrado para el proceso: " ++ proceso),
        c, s) := by
  unfold inspeccionar_chocolate
  rw [h]

/-- Claim C3 witness: on a fresh system every process name is unregistered and
inspection fails without touching the state. -/
theorem inspeccionar_proceso_desconocido_witness :
    inspeccionar_chocolate mkSistema cMolVacio "moldeado" fecha0 =
      (Except.error ("No hay sensor registrado para el proceso: " ++ "moldeado"),
        cMolVacio, mkSistema) :=
  inspeccionar_proceso_desconocido mkSistema cMolVacio "moldeado" fecha0 rfl

/-! Basic facts about the item operations. -/

/-- `agregar_defecto` never touches the stored status. -/
theorem agregar_defecto_estado (c : Chocolate) (d : TipoDefecto) :
    (agregar_defecto c d).estado_calidad = c.estado_calidad := by
  unfold agregar_defecto
  split <;> rfl

/-- The status stored by `evaluar_calidad` is the status it returns. -/
theorem evaluar_calidad_estado (c : Chocolate) :
    ((evaluar_calidad c).2).estado_calidad = (evaluar_calidad c).1 := rfl

/-- `evaluar_calidad` never touches the defect list. -/
theorem evaluar_calidad_defectos (c : Chocolate) :
    ((evaluar_calidad c).2).defectos = c.defectos := rfl

/-- Re-evaluating the object returned by `evaluar_calidad` yields the same
verdict: the verdict only reads the class tag and the defect list. -/
theorem evaluar_calidad_estable (c : Chocolate) :
    (evaluar_calidad ((evaluar_calidad c).2)).1 = (evaluar_calidad c).1 := rfl

/-- Every verdict of `evaluar_calidad` is `APROBADO` or `RECHAZADO`; all three
rule variants only ever store those two statuses. -/
theorem evaluar_calidad_ne_pendiente (c : Chocolate) :
    (evaluar_calidad c).1 ≠ .PENDIENTE := by
  rcases c with ⟨l, f, t, ds, e⟩
  unfold evaluar_calidad
  cases t <;> dsimp only <;> split <;> simp

/-- One driver step never resets a non-`PENDIENTE` status to `PENDIENTE`. -/
theorem step_estado_ne_pendiente (st : Chocolate × Sistema) (op : Op)
    (h : st.1.estado_calidad ≠ .PENDIENTE) :
    (step st op).1.estado_calidad ≠ .PENDIENTE := by
  cases op with
  | agregar d =>
      show (agregar_defecto st.1 d).estado_calidad ≠ _
      rw [agregar_defecto_estado]
      exact h
  | evaluar =>
      show ((evaluar_calidad st.1).2).estado_calidad ≠ _
      rw [evaluar_calidad_estado]
      exact evaluar_calidad_ne_pendiente st.1
  | inspeccionar p t =>
      show ((inspeccionar_chocolate st.2 st.1 p t).2.1).estado_calidad ≠ _
      unfold inspeccionar_chocolate
      cases hs : st.2.sensores p with
      | none => exact h
      | some sensor =>
          dsimp only
          rw [evaluar_calidad_estado]
          exact evaluar_calidad_ne_pendiente _

/-- Claim C9: once an item's status has left `PENDIENTE` it never becomes
`PENDIENTE` again under any sequence of public operations, and every
`evaluar_calidad` call returns either `APROBADO` or `RECHAZADO`. -/
theorem estado_no_regresa_pendiente (st : Chocolate × Sistema) (ops : List Op)
    (h : st.1.estado_calidad ≠ .PENDIENTE) :
    (run st ops).1.estado_calidad ≠ .PENDIENTE
  ∧ ∀ c : Chocolate, (evaluar_calidad c).1 ≠ .PENDIENTE := by
  refine ⟨?_, evaluar_calidad_ne_pendiente⟩
  induction ops generalizing st with
  | nil => exact h
  | cons op ops ih =>
      exact ih (step st op) (step_estado_ne_pendiente st op h)

/-- Claim C9 witness: starting from a rejected item, evaluating and adding a
stain leaves the status non-`PENDIENTE`. -/
theorem estado_no_regresa_pendiente_witness :
    (run (cMolRoto, mkSistema)
        [Op.evaluar, Op.agregar .MANCHAS]).1.estado_calidad ≠ .PENDIENTE :=
  (estado_no_regresa_pendiente (cMolRoto, mkSistema)
    [Op.evaluar, Op.agregar .MANCHAS] (by decide)).1

/-- Claim C5 counterexample: evaluate a fresh molded item (status becomes
`APROBADO`), then add a breakage without re-evaluating.  The status is
non-`PENDIENTE` yet differs from what `evaluar_calidad` would now return
(`RECHAZADO`): after a sequence ending in `agregar_defecto`, the stored
status is stale. -/
theorem estado_invariante_contra :
    (run (cMolVacio, mkSistema)
        [Op.evaluar, Op.agregar .ROTURA]).1.estado_calidad ≠ .PENDIENTE
  ∧ (run (cMolVacio, mkSistema)
        [Op.evaluar, Op.agregar .ROTURA]).1.estado_calidad ≠
      (evaluar_calidad
        (run (cMolVacio, mkSistema) [Op.evaluar, Op.agregar .ROTURA]).1).1 := by
  refine ⟨?_, ?_⟩ <;> decide

/-- Claim C5 (amended): the status is only ever written by `evaluar_calidad`
(`agregar_defecto` leaves it unchanged), and immediately after an
`evaluar_calidad` call or a successful `inspeccionar_chocolate` the stored
status equals what `evaluar_calidad` returns on the item's current defect
set; it may go stale only when defects are added after the last evaluation. -/
theorem estado_invariante_amended (c : Chocolate) (d : TipoDefecto)
    (s : Sistema) (p : String) (t : Datetime) (res : EstadoCalidad)
    (c' : Chocolate) (s' : Sistema) :
    (agregar_defecto c d).estado_calidad = c.estado_calidad
  ∧ ((evaluar_calidad c).2).estado_calidad =
      (evaluar_calidad ((evaluar_calidad c).2)).1
  ∧ (inspeccionar_chocolate s c p t = (Except.ok res, c', s') →
      c'.estado_calidad = (evaluar_calidad c').1 ∧ res = c'.estado_calidad) := by
  refine ⟨agregar_defecto_estado c d, ?_, fun hins => ?_⟩
  · rw [evaluar_calidad_estado, evaluar_calidad_estable]
  · unfold inspeccionar_chocolate at hins
    cases hs : s.sensores p with
    | none =>
        rw [hs] at hins
        simp at hins
    | some sensor =>
        rw [hs] at hins
        simp only [Prod.mk.injEq, Except.ok.injEq] at hins
        obtain ⟨h1, h2, h3⟩ := hins
        subst h2
        rw [evaluar_calidad_estado, evaluar_calidad_estable]
        exact ⟨rfl, h1.symm⟩

/-- Claim C5 witness for the amended statement: a concrete successful
inspection, after which the stored status agrees with re-evaluation. -/
theorem estado_invariante_amended_witness :
    cMolRoto.estado_calidad = (evaluar_calidad cMolRoto).1
  ∧ EstadoCalidad.RECHAZADO = cMolRoto.estado_calidad :=
  (estado_invariante_amended cMolVacio .ROTURA sMolSensor "moldeado" fecha0
    .RECHAZADO cMolRoto sMolDespues).2.2 rfl

/-! Folding string appends. -/

/-- A left fold that appends one rendered piece per element produces the
initial accumulator followed by the concatenation of all the pieces. -/
theorem foldl_append_concat {α : Type} (g : α → String) (l : List α)
    (acc : String) :
    l.foldl (fun r x => r ++ g x) acc = acc ++ concatStr (l.map g) := by
  induction l generalizing acc with
  | nil => simp [concatStr, String.append_empty]
  | cons x xs ih =>
      rw [List.foldl_cons, ih, List.map_cons]
      show _ = acc ++ (g x ++ concatStr (xs.map g))
      rw [← String.append_assoc]

/-- Enumerating from `k` and rendering each record with its 1-based number is
`entradasHistorial (k + 1)`. -/
theorem map_enumFrom_entradas (rs : List Registro) (k : Nat) :
    (List.enumFrom k rs).map (fun p => entradaHistorial (p.1 + 1) p.2) =
      entradasHistorial (k + 1) rs := by
  induction rs generalizing k with
  | nil => rfl
  | cons r rs ih =>
      show entradaHistorial (k + 1) r :: _ = entradaHistorial (k + 1) r :: _
      rw [ih]

/-- `entradasHistorial` yields one entry per record. -/
theorem entradasHistorial_length (k : Nat) (rs : List Registro) :
    (entradasHistorial k rs).length = rs.length := by
  induction rs generalizing k with
  | nil => rfl
  | cons r rs ih =>
      show (entradasHistorial (k + 1) rs).length + 1 = rs.length + 1
      rw [ih]

/-- The `j`-th entry of `entradasHistorial k` renders the `j`-th record with
number `k + j`. -/
theorem entradasHistorial_getElem (k j : Nat) (rs : List Registro)
    (r : Registro) (h : rs[j]? = some r) :
    (entradasHistorial k rs)[j]? = some (entradaHistorial (k + j) r) := by
  induction rs generalizing k j with
  | nil => simp at h
  | cons x xs ih =>
      cases j with
      | zero =>
          simp at h
          subst h
          simp [entradasHistorial]
      | succ j =>
          have hx : xs[j]? = some r := by simpa using h
          have := ih (k + 1) j hx
          simpa [entradasHistorial, Nat.add_assoc, Nat.add_comm 1 j] using this

/-- Claim C7: `mostrar_inspecciones` of an empty log is the fixed no-records
message; of a log of `N` records it is the history header followed by exactly
`N` numbered entries, 1-based and in call order, the `j`-th rendering the
`j`-th record (`entradaHistorial` omits its defects line exactly when that
record's per-call defect list is empty and carries the batch id, process,
status and formatted timestamp). -/
theorem mostrar_inspecciones_spec (s : Sistema) :
    (s.resultados = [] →
      (mostrar_inspecciones s).1 = "No hay inspecciones registradas.")
  ∧ (s.resultados ≠ [] →
      (mostrar_inspecciones s).1 =
        "HISTORIAL DE INSPECCIONES\n" ++ String.mk (List.replicate 50 '=') ++
          "\n" ++ concatStr (entradasHistorial 1 s.resultados))
  ∧ (entradasHistorial 1 s.resultados).length = s.resultados.length
  ∧ (∀ j r, s.resultados[j]? = some r →
      (entradasHistorial 1 s.resultados)[j]? =
        some (entradaHistorial (j + 1) r)) := by
  refine ⟨fun h => by simp [mostrar_inspecciones, h], fun h => ?_,
    entradasHistorial_length 1 s.resultados, fun j r hj => ?_⟩
  · unfold mostrar_inspecciones
    rw [if_neg h]
    show (List.enumFrom 0 s.resultados).foldl _ _ = _
    rw [foldl_append_concat (fun p : Nat × Registro => entradaHistorial (p.1 + 1) p.2)
        (List.enumFrom 0 s.resultados)
        ("HISTORIAL DE INSPECCIONES\n" ++ String.mk (List.replicate 50 '=') ++ "\n"),
      map_enumFrom_entradas s.resultados 0, String.append_assoc]
  · rw [entradasHistorial_getElem 1 j s.resultados r hj, Nat.add_comm]

/-- Claim C7 witness: the one-record history of `sMolDespues` (and, via the
first conjunct at `mkSistema`, the empty-log message). -/
theorem mostrar_inspecciones_spec_witness :
    (mostrar_inspecciones sMolDespues).1 =
      "HISTORIAL DE INSPECCIONES\n" ++ String.mk (List.replicate 50 '=') ++
        "\n" ++ concatStr (entradasHistorial 1 sMolDespues.resultados)
  ∧ (mostrar_inspecciones mkSistema).1 = "No hay inspecciones registradas." :=
  ⟨(mostrar_inspecciones_spec sMolDespues).2.1 (by decide),
   (mostrar_inspecciones_spec mkSistema).1 rfl⟩

/-! The defect tally. -/

/-- Incrementing key `d` raises the looked-up count of `v` by one exactly when
`v = d`. -/
theorem buscarContador_incKey (l : List (String × Nat)) (d v : String) :
    buscarContador (incKey l d) v =
      buscarContador l v + (if v = d then 1 else 0) := by
  induction l with
  | nil =>
      by_cases hv : v = d
      · subst hv
        simp [incKey, buscarContador]
      · have hdv : d ≠ v := fun h => hv h.symm
        simp [incKey, buscarContador, hdv, hv]
  | cons p rest ih =>
      rcases p with ⟨k, n⟩
      by_cases hk : k = d
      · subst hk
        by_cases hkv : k = v
        · subst hkv
          simp [incKey, buscarContador]
        · have hvk : v ≠ k := fun h => hkv h.symm
          simp [incKey, buscarContador, hkv, hvk]
      · by_cases hkv : k = v
        · subst hkv
          simp [incKey, buscarContador, hk]
        · simp [incKey, buscarContador, hk, hkv, ih]

/-- Folding one record's defect strings into the tally adds that record's
occurrence count of each kind. -/
theorem buscarContador_foldl_incKey (ds : List String)
    (acc : List (String × Nat)) (v : String) :
    buscarContador (ds.foldl incKey acc) v =
      buscarContador acc v + ds.count v := by
  induction ds generalizing acc with
  | nil => simp
  | cons d ds ih =>
      rw [List.foldl_cons, ih, buscarContador_incKey]
      by_cases hv : v = d
      · simp [hv, List.count_cons]
        omega
      · simp [hv, List.count_cons]

/-- Folding a record list into a tally counts occurrences across all the
records' per-call defect lists. -/
theorem buscarContador_foldl_registros (rs : List Registro)
    (acc : List (String × Nat)) (v : String) :
    buscarContador
        (rs.foldl (fun acc r => r.defectos.foldl incKey acc) acc) v =
      buscarContador acc v + ((rs.map Registro.defectos).flatten).count v := by
  induction rs generalizing acc with
  | nil => simp
  | cons r rs ih =>
      rw [List.foldl_cons, ih, buscarContador_foldl_incKey]
      simp [List.count_append]
      omega

/-- Claim C8: the per-kind count `generar_reporte` tabulates is the number of
occurrences of that kind across all records' per-call defect lists — not over
cumulative item defect sets — so a defect re-detected in two calls is tallied
once per record that lists it. -/
theorem contador_cuenta_por_llamada (rs : List Registro) (v : String) :
    buscarContador (contadorDefectos rs) v =
      ((rs.map Registro.defectos).flatten).count v
  ∧ ∀ r1 r2 : Registro,
      buscarContador (contadorDefectos [r1, r2]) v =
        r1.defectos.count v + r2.defectos.count v := by
  constructor
  · rw [contadorDefectos, buscarContador_foldl_registros]
    simp [buscarContador]
  · intro r1 r2
    rw [contadorDefectos, buscarContador_foldl_registros]
    simp [buscarContador, List.count_append]

/-- Claim C10: `generar_reporte` and `mostrar_inspecciones` are read-only —
they return the system (sensor map and log) unchanged, and two consecutive
calls with no inspection in between render identical text. -/
theorem observadores_solo_lectura (s : Sistema) :
    (generar_reporte s).2 = s
  ∧ (mostrar_inspecciones s).2 = s
  ∧ (generar_reporte ((generar_reporte s).2)).1 = (generar_reporte s).1
  ∧ (mostrar_inspecciones ((mostrar_inspecciones s).2)).1 =
      (mostrar_inspecciones s).1 := by
  have h1 : (generar_reporte s).2 = s := by
    unfold generar_reporte
    split
    · rfl
    · dsimp only
      split <;> rfl
  have h2 : (mostrar_inspecciones s).2 = s := by
    unfold mostrar_inspecciones
    split <;> rfl
  exact ⟨h1, h2, by rw [h1], by rw [h2]⟩

/-- The approved-count fold of `generar_reporte` (Python's
`sum(1 for r in ... if r['resultado'] == ...)`) counts the records whose
stored verdict string is `"aprobado"`. -/
theorem foldl_cuenta_aprobados (rs : List Registro) (acc : Nat) :
    rs.foldl
        (fun acc r => if r.resultado = EstadoCalidad.APROBADO.value then acc + 1
                      else acc) acc =
      acc + (rs.filter (fun r => r.resultado = "aprobado")).length := by
  induction rs generalizing acc with
  | nil => simp
  | cons r rs ih =>
      rw [List.foldl_cons, List.filter_cons]
      by_cases h : r.resultado = EstadoCalidad.APROBADO.value
      · have h2 : r.resultado = "aprobado" := h
        rw [if_pos h, ih]
        simp [h2]
        omega
      · have h2 : ¬ r.resultado = "aprobado" := h
        rw [if_neg h, ih]
        simp [h2]

/-- Claim C6: `generar_reporte` on an empty log is the fixed no-data message;
on `n` records with `a` approved it renders total `n`, approved `a`, rejected
`n - a` and the approval rate `a / n * 100` to two decimals, followed by the
defect table; in particular 3 approved of 4 total renders as `"75.00"`. -/
theorem generar_reporte_spec (s : Sistema) :
    (s.resultados = [] →
      (generar_reporte s).1 = "No hay datos de inspección para generar reporte.")
  ∧ (s.resultados ≠ [] →
      (generar_reporte s).1 =
        reporteEncabezadoSpec s.resultados.length
            (s.resultados.filter (fun r => r.resultado = "aprobado")).length ++
          reporteDetalleSpec (contadorDefectos s.resultados))
  ∧ fmtF2 ((3 : Rat) / (4 : Rat) * 100) = "75.00" := by
  refine ⟨fun h => by simp [generar_reporte, h], fun h => ?_, ?_⟩
  case refine_2 =>
    have h1 : (3 : Rat) / (4 : Rat) * 100 = 75 := by norm_num
    have h2 : round2 75 = 7500 := by
      unfold round2
      simp only [Rat.num_ofNat, Rat.den_ofNat]
      decide
    rw [h1]
    show toString (round2 75 / 100) ++ "." ++ pad2 (round2 75 % 100) = "75.00"
    rw [h2]
    decide
  have hpos : s.resultados.length > 0 := List.length_pos.mpr h
  unfold generar_reporte
  rw [if_neg h]
  dsimp only
  rw [foldl_cuenta_aprobados, Nat.zero_add, if_pos hpos]
  by_cases hc : contadorDefectos s.resultados = []
  · rw [if_pos hc]
    show _ = _ ++ reporteDetalleSpec (contadorDefectos s.resultados)
    rw [reporteDetalleSpec, if_pos hc]
    rfl
  · rw [if_neg hc]
    show (contadorDefectos s.resultados).foldl _ _ = _
    rw [foldl_append_concat
        (fun p : String × Nat =>
          "  - " ++ p.1 ++ ": " ++ toString p.2 ++ " ocurrencias\n")
        (contadorDefectos s.resultados)]
    rw [reporteDetalleSpec, if_neg hc]
    rfl

/-- Claim C6 witness: four concrete inspections, three approved, render with
total 4, approved 3, rejected 1 and rate `75.00%` (and a fresh system renders
the no-data message). -/
theorem generar_reporte_spec_witness :
    (generar_reporte sCuatro).1 =
      reporteEncabezadoSpec 4 3 ++
        reporteDetalleSpec (contadorDefectos sCuatro.resultados)
  ∧ (generar_reporte mkSistema).1 =
      "No hay datos de inspección para generar reporte." :=
  ⟨(generar_reporte_spec sCuatro).2.1 (by decide),
   (generar_reporte_spec mkSistema).1 rfl⟩

end ControlCalidad
